import Mathlib

/-!
# Hirafi booking routes: a shallow embedding

This file embeds the booking blueprint of `backend/routes/booking.py`
(the `book_artisan` POST/PUT handler and the `bookings` listing handler)
in Lean 4 and proves properties of the embedded handlers.

Conventions of the embedding:
* timestamps (`datetime` values) are modelled as `Nat` with the usual order;
* the standard-library collaborators the handlers call — `datetime.now`,
  `datetime.strptime` (format fixed in the source), `strftime`, and the two
  failure points of the ORM (`Booking(...)` construction and
  `db.session.commit`) — are gathered in an `Env` record that is an input of
  each request, so theorems quantify over their behaviour;
* a handler returns an `Outcome` (a JSON response with its HTTP status, or
  an exception that escapes the handler), the database after the request and
  the list of emails sent; the database mutation performed by the ORM session
  takes effect at a successful `commit`;
* `None` values of Python are `Option.none`; `dict.get` is field access on an
  `Option`-valued record of the known keys.
-/

namespace Hirafi

/-- `models.user.User`: the fields the booking routes read. -/
structure User where
  id : Nat
  email : String
  role : String
deriving DecidableEq

/-- `models.client.Client`: the fields the booking routes read. -/
structure Client where
  id : Nat
  user_id : Nat
  email : String
  name : String
  phone_number : String
deriving DecidableEq

/-- `models.artisan.Artisan`: the fields the booking routes read. -/
structure Artisan where
  id : Nat
  user_id : Nat
  email : String
  name : String
deriving DecidableEq

/-- `models.booking.Booking`: the columns the booking routes read and write.
`status` is `Option String` because the PUT handler stores
`data.get('action')`, which is `None` when the field is absent. -/
structure Booking where
  id : Nat
  client_id : Nat
  artisan_id : Nat
  title : String
  status : Option String
  request_date : Nat
  completion_date : Nat
  details : String
  created_at : Nat
deriving DecidableEq

/-- The relational store the routes query and commit to. -/
structure DB where
  users : List User
  clients : List Client
  artisans : List Artisan
  bookings : List Booking
deriving DecidableEq

/-- The external collaborators of one request: the clock, the fixed-format
`datetime.strptime`/`strftime` of the standard library, and whether the two
ORM steps of the creation path fail when reached. -/
structure Env where
  now : Nat
  parseDate : String → Option Nat
  fmtDate : Nat → String
  constructFails : Bool
  commitFails : Bool

/-- The JSON body of a `book_artisan` request, as read by `data.get(...)`:
every known key is optional. `booking_id` is a JSON integer when present. -/
structure JsonData where
  client_email : Option String
  artisan_email : Option String
  title : Option String
  details : Option String
  completion_date : Option String
  booking_id : Option Nat
  action : Option String
deriving DecidableEq

/-- The HTTP methods the two routes can be dispatched with. -/
inductive Method where
  | POST
  | PUT
  | GET
  | OPTIONS
deriving DecidableEq

/-- An email handed to `send_email(to, subject, body)`; `to_addr` is the
first argument. -/
structure Email where
  to_addr : String
  subject : String
  body : String
deriving DecidableEq

/-- A JSON response body: an error object, a message object, or the listing
object of the `bookings` route. -/
inductive RespBody where
  | error (msg : String)
  | message (msg : String)
  | listing (bookings : List Booking) (total_pages : Int) (current_page : Int)
deriving DecidableEq

/-- What a request produces: a JSON response with its HTTP status code, or an
exception that escapes the handler (left for the framework's default
behaviour, which is not a handler-produced JSON response). -/
inductive Outcome where
  | resp (body : RespBody) (status : Nat)
  | raised (msg : String)
deriving DecidableEq

/-- Outcome, database after the request, emails sent during the request. -/
structure HandlerResult where
  outcome : Outcome
  db : DB
  emails : List Email
deriving DecidableEq

/-- `User.query.filter_by(id=user_id).first()`. -/
def findUser (db : DB) (uid : Nat) : Option User :=
  db.users.find? fun u => u.id == uid

/-- `Client.query.filter_by(email=client_email).first()`. -/
def findClientByEmail (db : DB) (e : String) : Option Client :=
  db.clients.find? fun c => c.email == e

/-- `Artisan.query.filter_by(email=artisan_email).first()`. -/
def findArtisanByEmail (db : DB) (e : String) : Option Artisan :=
  db.artisans.find? fun a => a.email == e

/-- `Booking.query.filter_by(id=booking_id).first()`; `booking_id` may be
absent (`None`), in which case no row matches. -/
def findBooking (db : DB) (bid : Option Nat) : Option Booking :=
  db.bookings.find? fun b => some b.id == bid

/-- `booking.status = action; db.session.commit()`: overwrite the status of
the first booking matching `bid` (the one `.first()` returned), leaving every
other row untouched. -/
def updateFirst (bid : Option Nat) (act : Option String) : List Booking → List Booking
  | [] => []
  | b :: bs =>
    if some b.id == bid then { b with status := act } :: bs
    else b :: updateFirst bid act bs

/-- Modelled from the spec: `models/booking.py` is not under `src/`; the ORM
assigns a fresh primary key to the inserted row at commit. -/
def freshId (db : DB) : Nat :=
  (db.bookings.map Booking.id).foldr max 0 + 1

/-- The `Booking(...)` constructed on the creation path of `book_artisan`:
status `"Pending"`, `request_date` and `created_at` the current time. -/
def mkBooking (env : Env) (db : DB) (client : Client) (artisan : Artisan)
    (title details : String) (completion_date : Nat) : Booking :=
  { id := freshId db
    client_id := client.id
    artisan_id := artisan.id
    title := title
    status := some "Pending"
    request_date := env.now
    completion_date := completion_date
    details := details
    created_at := env.now }

/-- The notification email built on the creation path and handed to
`send_email(artisan.email, subject, body)`. -/
def bookingEmail (env : Env) (client : Client) (artisan : Artisan)
    (booking : Booking) : Email :=
  { to_addr := artisan.email
    subject := "HIRAFIC: New Booking from " ++ client.name
    body :=
      "\n    Hello " ++ artisan.name ++ ",\n\n    You have received a new booking with title "
        ++ booking.title ++ ".\n    You can contact the client " ++ client.name ++ " at "
        ++ client.phone_number ++ ",\n    or at this email address " ++ client.email
        ++ ".\n\n    Booking Details:\n    " ++ booking.details
        ++ "\n\n    Requested Date:\n        " ++ env.fmtDate booking.request_date
        ++ "\n\n    Expected Completion Date:\n        " ++ env.fmtDate booking.completion_date
        ++ "\n\n    Please view the booking details in your dashboard.\n\n    Best regards,\n    Your HIRAFIC Booking Team\n    " }

/-- One character of Python's `str.lower()` on the ASCII range (the only
range the claims exercise), written structurally so it evaluates. -/
def asciiLowerChar (c : Char) : Char :=
  if 'A' ≤ c ∧ c ≤ 'Z' then Char.ofNat (c.toNat + 32) else c

/-- Python's `str.lower()` as applied to the two email fields. -/
def pyLower (s : String) : String :=
  ⟨s.data.map asciiLowerChar⟩

/-- The POST branch of `book_artisan` (booking creation), entered once the
caller is authenticated.  Mirrors the source order: role gate, body reads
(`.lower()` on a missing email raises, caught as 400), date parse (failure
caught as 400), past-date check, existence check, `Booking(...)` construction
(failure caught as 500), `db.session.add` + `commit` (failure NOT caught:
the exception escapes the handler), then the notification email and 201. -/
def bookArtisanPost (env : Env) (db : DB) (current_user : User)
    (data : Option JsonData) : HandlerResult :=
  if current_user.role ≠ "Client" then
    ⟨.resp (.error "User is not a client") 403, db, []⟩
  else
    match data with
    | none => ⟨.resp (.error "Invalid request: no JSON body") 400, db, []⟩
    | some data =>
      match data.client_email with
      | none => ⟨.resp (.error "Invalid request: AttributeError") 400, db, []⟩
      | some ce =>
        match data.artisan_email with
        | none => ⟨.resp (.error "Invalid request: AttributeError") 400, db, []⟩
        | some ae =>
          let client := findClientByEmail db (pyLower ce)
          let artisan := findArtisanByEmail db (pyLower ae)
          match env.parseDate (data.completion_date.getD "") with
          | none => ⟨.resp (.error "Invalid request: time data does not match format") 400, db, []⟩
          | some completion_date =>
            if completion_date < env.now then
              ⟨.resp (.error "Completion date cannot be in the past") 400, db, []⟩
            else
              match client, artisan with
              | some client, some artisan =>
                if env.constructFails then
                  ⟨.resp (.error "Unable to create booking: constructor raised") 500, db, []⟩
                else
                  let booking := mkBooking env db client artisan
                    (data.title.getD "") (data.details.getD "") completion_date
                  if env.commitFails then
                    ⟨.raised "db.session.commit raised", db, []⟩
                  else
                    ⟨.resp (.message "Booking created and email sent successfully!") 201,
                      { db with bookings := db.bookings ++ [booking] },
                      [bookingEmail env client artisan booking]⟩
              | _, _ => ⟨.resp (.error "Client or Artisan not found") 404, db, []⟩

/-- The PUT branch of `book_artisan` (status update), entered once the caller
is authenticated: role gate, body read (failure caught as 400), booking
lookup (missing row is 404), unconditional status overwrite with
`data.get('action')` and commit (a commit failure is inside the `try`, so it
is caught as 400 and nothing is persisted). -/
def bookArtisanPut (env : Env) (db : DB) (current_user : User)
    (data : Option JsonData) : HandlerResult :=
  if current_user.role ≠ "Artisan" then
    ⟨.resp (.error "User is not an artisan") 403, db, []⟩
  else
    match data with
    | none => ⟨.resp (.error "Invalid request: no JSON body") 400, db, []⟩
    | some data =>
      match findBooking db data.booking_id with
      | none => ⟨.resp (.error "Booking not found") 404, db, []⟩
      | some _ =>
        if env.commitFails then
          ⟨.resp (.error "Invalid request: commit raised") 400, db, []⟩
        else
          ⟨.resp (.message "Booking updated successfully") 200,
            { db with bookings := updateFirst data.booking_id data.action db.bookings },
            []⟩

/-- `book_artisan`: the route accepts POST, PUT and OPTIONS (anything else is
refused by the framework with 405 before the handler runs); OPTIONS is the
preflight answer; then the JWT identity is resolved (401 when it matches no
user) and the request is dispatched to the PUT or POST branch. -/
def book_artisan (env : Env) (db : DB) (method : Method) (user_id : Nat)
    (data : Option JsonData) : HandlerResult :=
  if method = .GET then
    ⟨.resp (.error "Method Not Allowed") 405, db, []⟩
  else if method = .OPTIONS then
    ⟨.resp (.message "Preflight request") 200, db, []⟩
  else
    match findUser db user_id with
    | none => ⟨.resp (.error "User not authenticated") 401, db, []⟩
    | some current_user =>
      if method = .PUT then bookArtisanPut env db current_user data
      else bookArtisanPost env db current_user data

/-- Modelled from the spec: the SQLAlchemy models are not under `src/`.  A
user has a one-to-one profile (`Client` or `Artisan`, by role) and each
profile has many bookings through its foreign key; the handler's
`current_user.artisan.bookings` / `current_user.client.bookings` reads the
attached profile's bookings, and raises (`None` has no attribute) when the
profile row is missing. -/
def profileBookings (db : DB) (u : User) : Option (List Booking) :=
  if u.role = "Artisan" then
    (db.artisans.find? fun a => a.user_id == u.id).map
      (fun a => db.bookings.filter fun b => b.artisan_id == a.id)
  else
    (db.clients.find? fun c => c.user_id == u.id).map
      (fun c => db.bookings.filter fun b => b.client_id == c.id)

/-- Modelled from the spec: `models/booking.py` is not under `src/`;
`to_dict` serializes a booking's columns, and the sort key access
`x['request_date']` reads its `request_date`. -/
def Booking.to_dict (b : Booking) : Booking := b

/-- The accumulating loop of a decimal literal: all characters must be ASCII
digits. -/
def digitsToNatAux : List Char → Nat → Option Nat
  | [], acc => some acc
  | c :: cs, acc =>
    if '0' ≤ c ∧ c ≤ '9' then
      digitsToNatAux cs (acc * 10 + (c.toNat - '0'.toNat))
    else none

/-- A non-empty run of ASCII digits as a number. -/
def digitsToNat? : List Char → Option Nat
  | [] => none
  | cs => digitsToNatAux cs 0

/-- CPython's `int(s)` on a plain decimal literal: an optional sign followed
by one or more ASCII digits; any other string raises `ValueError` (is
`none`).  Written structurally so it evaluates. -/
def pyInt? (s : String) : Option Int :=
  match s.data with
  | '-' :: cs => (digitsToNat? cs).map (fun n => -(n : Int))
  | '+' :: cs => (digitsToNat? cs).map (fun n => (n : Int))
  | cs => (digitsToNat? cs).map (fun n => (n : Int))

/-- `int(request.args.get(key, default))`: the default is already an `int`;
a present parameter is a string fed to `int(...)`, whose failure raises. -/
def parseIntParam (p : Option String) (default : Int) : Option Int :=
  match p with
  | none => some default
  | some s => pyInt? s

/-- The sort key order of `sorted(data, key=lambda x: x['request_date'],
reverse=True)`: later `request_date` first. -/
def keyGE (a b : Booking) : Prop :=
  b.request_date ≤ a.request_date

instance : DecidableRel keyGE := fun a b =>
  inferInstanceAs (Decidable (b.request_date ≤ a.request_date))

instance : IsTotal Booking keyGE :=
  ⟨fun a b => Nat.le_total b.request_date a.request_date⟩

instance : IsTrans Booking keyGE :=
  ⟨fun _ _ _ hab hbc => Nat.le_trans hbc hab⟩

/-- `sorted(data, key=lambda x: x['request_date'], reverse=True)`: Python's
sort is stable, and a stable sort for a fixed preorder is unique, so the
standard stable insertion sort under `keyGE` is its value. -/
def sortByRequestDateDesc (l : List Booking) : List Booking :=
  List.insertionSort keyGE l

/-- One bound of a Python slice `l[start:stop]`: a negative index counts from
the end, and both are clamped into `[0, len(l)]`. -/
def pySliceBound (n : Int) (i : Int) : Nat :=
  if i < 0 then (max (n + i) 0).toNat else (min i n).toNat

/-- Python's `l[start:stop]` on integer bounds. -/
def pySlice (l : List Booking) (start stop : Int) : List Booking :=
  (l.take (pySliceBound (l.length : Int) stop)).drop
    (pySliceBound (l.length : Int) start)

/-- The `bookings` listing route: GET and OPTIONS only, preflight, JWT
identity (401), the caller's bookings through the role's profile, the empty
answer when there are none (the pagination parameters are never read), then
inside the `try`: `int(...)` of the two parameters (failure is 400),
slice bounds, stable descending sort by `request_date`, the slice, and
`(len(data) + per_page - 1) // per_page` (division by zero is 400). -/
def bookingsRoute (db : DB) (method : Method) (user_id : Nat)
    (page_param per_page_param : Option String) : Outcome :=
  if method = .POST ∨ method = .PUT then
    .resp (.error "Method Not Allowed") 405
  else if method = .OPTIONS then
    .resp (.message "Preflight request") 200
  else
    match findUser db user_id with
    | none => .resp (.error "User not authenticated") 401
    | some current_user =>
      match profileBookings db current_user with
      | none => .raised "AttributeError: NoneType has no attribute bookings"
      | some bs =>
        if bs.isEmpty then
          .resp (.listing [] 0 1) 200
        else
          match parseIntParam page_param 1 with
          | none => .resp (.error "Invalid request: invalid literal for int") 400
          | some page =>
            match parseIntParam per_page_param 10 with
            | none => .resp (.error "Invalid request: invalid literal for int") 400
            | some per_page =>
              let start := (page - 1) * per_page
              let stop := start + per_page
              let data := bs.map Booking.to_dict
              let sorted_bookings := sortByRequestDateDesc data
              let paginated_data := pySlice sorted_bookings start stop
              if per_page = 0 then
                .resp (.error "Invalid request: integer division by zero") 400
              else
                .resp (.listing paginated_data
                  (((data.length : Int) + per_page - 1).fdiv per_page) page) 200

/-- The HTTP status of an outcome the handler itself produced. -/
def outcomeStatus : Outcome → Option Nat
  | .resp _ s => some s
  | .raised _ => none

/-- Two bookings that agree on every column except possibly `status`. -/
def sameExceptStatus (a b : Booking) : Prop :=
  a.id = b.id ∧ a.client_id = b.client_id ∧ a.artisan_id = b.artisan_id ∧
  a.title = b.title ∧ a.details = b.details ∧ a.request_date = b.request_date ∧
  a.completion_date = b.completion_date ∧ a.created_at = b.created_at

/-! ### Concrete fixtures used by witnesses and counterexamples -/

/-- A concrete environment: the clock reads 100; the parser accepts one
future date string (value 200) and one past date string (value 50); neither
ORM step fails. -/
def envOk : Env :=
  { now := 100
    parseDate := fun s =>
      if s = "2099-01-01T00:00:00.000000Z" then some 200
      else if s = "2020-01-01T00:00:00.000000Z" then some 50
      else none
    fmtDate := fun n => toString n
    constructFails := false
    commitFails := false }

/-- `envOk` with a failing `db.session.commit`. -/
def envCommitFail : Env :=
  { envOk with commitFails := true }

def clientUser : User :=
  { id := 1, email := "cleo@x.com", role := "Client" }

def artisanUser : User :=
  { id := 2, email := "arta@x.com", role := "Artisan" }

/-- A Client-role user whose client profile has no bookings. -/
def idleUser : User :=
  { id := 3, email := "nob@x.com", role := "Client" }

def clientRec : Client :=
  { id := 11, user_id := 1, email := "cleo@x.com", name := "Cleo",
    phone_number := "555-0100" }

def idleClientRec : Client :=
  { id := 12, user_id := 3, email := "nob@x.com", name := "Noa",
    phone_number := "555-0101" }

def artisanRec : Artisan :=
  { id := 21, user_id := 2, email := "arta@x.com", name := "Arta" }

def booking1 : Booking :=
  { id := 31, client_id := 11, artisan_id := 21, title := "Fix sink",
    status := some "Pending", request_date := 40, completion_date := 90,
    details := "leaky tap", created_at := 40 }

def booking2 : Booking :=
  { id := 32, client_id := 11, artisan_id := 21, title := "Paint wall",
    status := some "Pending", request_date := 60, completion_date := 95,
    details := "two coats", created_at := 60 }

def dbOk : DB :=
  { users := [clientUser, artisanUser, idleUser]
    clients := [clientRec, idleClientRec]
    artisans := [artisanRec]
    bookings := [booking1, booking2] }

/-- A well-formed creation body with the future completion date. -/
def dataCreate : JsonData :=
  { client_email := some "cleo@x.com", artisan_email := some "arta@x.com",
    title := some "Fix sink", details := some "leaky tap",
    completion_date := some "2099-01-01T00:00:00.000000Z",
    booking_id := none, action := none }

/-- A creation body whose artisan email matches no artisan and whose
completion date is in the past. -/
def dataPastUnknownArtisan : JsonData :=
  { client_email := some "cleo@x.com", artisan_email := some "ghost@x.com",
    title := some "Fix sink", details := some "leaky tap",
    completion_date := some "2020-01-01T00:00:00.000000Z",
    booking_id := none, action := none }

/-- An update body targeting `booking1` with an arbitrary, unvalidated
status string. -/
def dataUpdate : JsonData :=
  { client_email := none, artisan_email := none, title := none,
    details := none, completion_date := none,
    booking_id := some 31, action := some "TotallyMadeUpStatus" }

/-! ### Claim theorems -/

/-- C1: for every authenticated Client-role creation request whose
`client_email` and `artisan_email` resolve to an existing Client and Artisan
and whose `completion_date` parses and is not in the past, `book_artisan`
persists a new Booking with status `"Pending"` and `request_date` and
`created_at` the current time, sends exactly one email to the artisan's
address, and returns 201. -/
theorem C1_create_booking_success (env : Env) (db : DB) (uid : Nat)
    (data : JsonData) (u : User) (ce ae : String) (client : Client)
    (artisan : Artisan) (d : Nat)
    (hu : findUser db uid = some u) (hrole : u.role = "Client")
    (hce : data.client_email = some ce) (hae : data.artisan_email = some ae)
    (hc : findClientByEmail db (pyLower ce) = some client)
    (ha : findArtisanByEmail db (pyLower ae) = some artisan)
    (hd : env.parseDate (data.completion_date.getD "") = some d)
    (hfut : ¬ d < env.now)
    (hcon : env.constructFails = false) (hcom : env.commitFails = false) :
    (book_artisan env db .POST uid (some data)).outcome
        = .resp (.message "Booking created and email sent successfully!") 201
    ∧ (book_artisan env db .POST uid (some data)).db.bookings
        = db.bookings
            ++ [mkBooking env db client artisan (data.title.getD "")
                  (data.details.getD "") d]
    ∧ (mkBooking env db client artisan (data.title.getD "")
          (data.details.getD "") d).status = some "Pending"
    ∧ (mkBooking env db client artisan (data.title.getD "")
          (data.details.getD "") d).request_date = env.now
    ∧ (mkBooking env db client artisan (data.title.getD "")
          (data.details.getD "") d).created_at = env.now
    ∧ (book_artisan env db .POST uid (some data)).emails.map Email.to_addr
        = [artisan.email] := by
  simp [book_artisan, bookArtisanPost, hu, hrole, hce, hae, hc, ha, hd, hfut,
    hcon, hcom, mkBooking, bookingEmail]

theorem C1_create_booking_success_witness :
    (book_artisan envOk dbOk .POST 1 (some dataCreate)).outcome
        = .resp (.message "Booking created and email sent successfully!") 201
    ∧ (book_artisan envOk dbOk .POST 1 (some dataCreate)).db.bookings
        = dbOk.bookings
            ++ [mkBooking envOk dbOk clientRec artisanRec
                  (dataCreate.title.getD "") (dataCreate.details.getD "") 200]
    ∧ (mkBooking envOk dbOk clientRec artisanRec (dataCreate.title.getD "")
          (dataCreate.details.getD "") 200).status = some "Pending"
    ∧ (mkBooking envOk dbOk clientRec artisanRec (dataCreate.title.getD "")
          (dataCreate.details.getD "") 200).request_date = envOk.now
    ∧ (mkBooking envOk dbOk clientRec artisanRec (dataCreate.title.getD "")
          (dataCreate.details.getD "") 200).created_at = envOk.now
    ∧ (book_artisan envOk dbOk .POST 1 (some dataCreate)).emails.map Email.to_addr
        = [artisanRec.email] :=
  C1_create_booking_success envOk dbOk 1 dataCreate clientUser
    "cleo@x.com" "arta@x.com" clientRec artisanRec 200
    rfl rfl rfl rfl (by decide) (by decide) rfl (by decide) rfl rfl

/-- C4: a Client-role creation request whose completion date parses to a time
earlier than the current time gets 400 with the past-date message, the store
is unchanged and no email is sent. -/
theorem C4_past_completion_date_rejected (env : Env) (db : DB) (uid : Nat)
    (data : JsonData) (u : User) (ce ae : String) (d : Nat)
    (hu : findUser db uid = some u) (hrole : u.role = "Client")
    (hce : data.client_email = some ce) (hae : data.artisan_email = some ae)
    (hd : env.parseDate (data.completion_date.getD "") = some d)
    (hpast : d < env.now) :
    book_artisan env db .POST uid (some data)
      = ⟨.resp (.error "Completion date cannot be in the past") 400, db, []⟩ := by
  simp [book_artisan, bookArtisanPost, hu, hrole, hce, hae, hd, hpast]

theorem C4_past_completion_date_rejected_witness :
    book_artisan envOk dbOk .POST 1 (some dataPastUnknownArtisan)
      = ⟨.resp (.error "Completion date cannot be in the past") 400, dbOk, []⟩ :=
  C4_past_completion_date_rejected envOk dbOk 1 dataPastUnknownArtisan
    clientUser "cleo@x.com" "ghost@x.com" 50 rfl rfl rfl rfl rfl (by decide)

/-- C5 counterexample: a Client-role creation request whose `artisan_email`
resolves to no Artisan but whose completion date is in the past is answered
400 with the past-date message, not 404 — the past-date check runs before the
existence check. -/
theorem C5_counterexample :
    findArtisanByEmail dbOk "ghost@x.com" = none
    ∧ book_artisan envOk dbOk .POST 1 (some dataPastUnknownArtisan)
        = ⟨.resp (.error "Completion date cannot be in the past") 400, dbOk, []⟩
    ∧ (book_artisan envOk dbOk .POST 1 (some dataPastUnknownArtisan)).outcome
        ≠ .resp (.error "Client or Artisan not found") 404 := by
  refine ⟨rfl, rfl, ?_⟩
  decide

/-- C5 as amended: when additionally the completion date parses and is not in
the past, a creation request with an unknown client or artisan email is
answered 404 with "Client or Artisan not found", the store is unchanged and
no email is sent. -/
theorem C5_unknown_client_or_artisan (env : Env) (db : DB) (uid : Nat)
    (data : JsonData) (u : User) (ce ae : String) (d : Nat)
    (hu : findUser db uid = some u) (hrole : u.role = "Client")
    (hce : data.client_email = some ce) (hae : data.artisan_email = some ae)
    (hd : env.parseDate (data.completion_date.getD "") = some d)
    (hfut : ¬ d < env.now)
    (hmiss : findClientByEmail db (pyLower ce) = none
      ∨ findArtisanByEmail db (pyLower ae) = none) :
    book_artisan env db .POST uid (some data)
      = ⟨.resp (.error "Client or Artisan not found") 404, db, []⟩ := by
  rcases hmiss with hm | hm
  · rcases hart : findArtisanByEmail db (pyLower ae) with _ | a <;>
      simp [book_artisan, bookArtisanPost, hu, hrole, hce, hae, hd, hfut, hm, hart]
  · rcases hcl : findClientByEmail db (pyLower ce) with _ | c <;>
      simp [book_artisan, bookArtisanPost, hu, hrole, hce, hae, hd, hfut, hm, hcl]

theorem C5_unknown_client_or_artisan_witness :
    book_artisan envOk dbOk .POST 1
        (some { dataPastUnknownArtisan with
                  completion_date := some "2099-01-01T00:00:00.000000Z" })
      = ⟨.resp (.error "Client or Artisan not found") 404, dbOk, []⟩ :=
  C5_unknown_client_or_artisan envOk dbOk 1
    { dataPastUnknownArtisan with
        completion_date := some "2099-01-01T00:00:00.000000Z" }
    clientUser "cleo@x.com" "ghost@x.com" 200
    rfl rfl rfl rfl rfl (by decide) (Or.inr (by decide))

/-- Overwriting the status of the first row matching `bid` makes the later
lookup of `bid` return that row with the new status. -/
theorem find_updateFirst (bid : Nat) (act : Option String) (b : Booking)
    (l : List Booking)
    (h : l.find? (fun x => some x.id == some bid) = some b) :
    (updateFirst (some bid) act l).find? (fun x => some x.id == some bid)
      = some { b with status := act } := by
  induction l with
  | nil => simp at h
  | cons a t ih =>
    by_cases hab : a.id = bid
    · have hfind : (a :: t).find? (fun x => some x.id == some bid) = some a := by
        simp [List.find?_cons_of_pos, hab]
      rw [hfind] at h
      obtain rfl : a = b := by exact Option.some.inj h
      simp [updateFirst, hab]
    · have hpred : (some a.id == some bid) = false := by simp [hab]
      rw [List.find?_cons_of_neg _ (by simp [hab])] at h
      simp only [updateFirst, hpred, if_neg, Bool.false_eq_true, if_false]
      rw [List.find?_cons_of_neg _ (by simp [hab])]
      exact ih h

/-- C2: an authenticated Artisan-role PUT whose `booking_id` resolves
overwrites that booking's status with the supplied `action` value, whatever
`Option String` it is (no validation; an absent field stores `none`), and
returns 200. -/
theorem C2_update_overwrites_status (env : Env) (db : DB) (uid : Nat)
    (data : JsonData) (u : User) (bid : Nat) (b : Booking)
    (hu : findUser db uid = some u) (hrole : u.role = "Artisan")
    (hbid : data.booking_id = some bid)
    (hb : findBooking db (some bid) = some b)
    (hcom : env.commitFails = false) :
    (book_artisan env db .PUT uid (some data)).outcome
        = .resp (.message "Booking updated successfully") 200
    ∧ (book_artisan env db .PUT uid (some data)).db
        = { db with bookings := updateFirst (some bid) data.action db.bookings }
    ∧ findBooking (book_artisan env db .PUT uid (some data)).db (some bid)
        = some { b with status := data.action } := by
  have hroute : book_artisan env db .PUT uid (some data)
      = ⟨.resp (.message "Booking updated successfully") 200,
          { db with bookings := updateFirst (some bid) data.action db.bookings },
          []⟩ := by
    simp [book_artisan, bookArtisanPut, hu, hrole, hbid, hb, hcom]
  rw [hroute]
  exact ⟨rfl, rfl, find_updateFirst bid data.action b db.bookings hb⟩

theorem C2_update_overwrites_status_witness :
    (book_artisan envOk dbOk .PUT 2 (some dataUpdate)).outcome
        = .resp (.message "Booking updated successfully") 200
    ∧ (book_artisan envOk dbOk .PUT 2 (some dataUpdate)).db
        = { dbOk with
              bookings := updateFirst (some 31) dataUpdate.action dbOk.bookings }
    ∧ findBooking (book_artisan envOk dbOk .PUT 2 (some dataUpdate)).db (some 31)
        = some { booking1 with status := dataUpdate.action } :=
  C2_update_overwrites_status envOk dbOk 2 dataUpdate artisanUser 31 booking1
    rfl rfl rfl rfl rfl

/-- C6: the booking endpoint's gates, with no change to stored state and no
email: POST by a non-Client role is 403, PUT by a non-Artisan role is 403,
and a well-formed PUT whose `booking_id` matches no booking is 404. -/
theorem C6_role_and_existence_gates (env : Env) (db : DB) (uid : Nat) (u : User)
    (hu : findUser db uid = some u) :
    (∀ data : Option JsonData, u.role ≠ "Client" →
        book_artisan env db .POST uid data
          = ⟨.resp (.error "User is not a client") 403, db, []⟩)
    ∧ (∀ data : Option JsonData, u.role ≠ "Artisan" →
        book_artisan env db .PUT uid data
          = ⟨.resp (.error "User is not an artisan") 403, db, []⟩)
    ∧ (∀ data : JsonData, u.role = "Artisan" →
        findBooking db data.booking_id = none →
        book_artisan env db .PUT uid (some data)
          = ⟨.resp (.error "Booking not found") 404, db, []⟩) := by
  refine ⟨fun data hr => ?_, fun data hr => ?_, fun data hr hnb => ?_⟩
  · simp [book_artisan, bookArtisanPost, hu, hr]
  · simp [book_artisan, bookArtisanPut, hu, hr]
  · simp [book_artisan, bookArtisanPut, hu, hr, hnb]

theorem C6_role_and_existence_gates_witness :
    (∀ data : Option JsonData, artisanUser.role ≠ "Client" →
        book_artisan envOk dbOk .POST 2 data
          = ⟨.resp (.error "User is not a client") 403, dbOk, []⟩)
    ∧ (∀ data : Option JsonData, artisanUser.role ≠ "Artisan" →
        book_artisan envOk dbOk .PUT 2 data
          = ⟨.resp (.error "User is not an artisan") 403, dbOk, []⟩)
    ∧ (∀ data : JsonData, artisanUser.role = "Artisan" →
        findBooking dbOk data.booking_id = none →
        book_artisan envOk dbOk .PUT 2 (some data)
          = ⟨.resp (.error "Booking not found") 404, dbOk, []⟩) :=
  C6_role_and_existence_gates envOk dbOk 2 artisanUser rfl

/-- C8 counterexample: with a failing `db.session.commit`, a valid creation
request makes the handler raise — the exception escapes `book_artisan`
(`add`/`commit` are outside the `try`), so no 500 JSON response is produced
by the handler. -/
theorem C8_counterexample :
    book_artisan envCommitFail dbOk .POST 1 (some dataCreate)
      = ⟨.raised "db.session.commit raised", dbOk, []⟩
    ∧ outcomeStatus (book_artisan envCommitFail dbOk .POST 1 (some dataCreate)).outcome
        = none :=
  ⟨rfl, rfl⟩

/-- C8 as amended: on the valid creation path, a failure of the
`Booking(...)` constructor is caught and answered 500 with a JSON error body,
while a failure of `db.session.add`/`commit` is not caught — the exception
propagates out of the handler instead of producing its JSON 500. -/
theorem C8_persistence_failure_modes (env : Env) (db : DB) (uid : Nat)
    (data : JsonData) (u : User) (ce ae : String) (client : Client)
    (artisan : Artisan) (d : Nat)
    (hu : findUser db uid = some u) (hrole : u.role = "Client")
    (hce : data.client_email = some ce) (hae : data.artisan_email = some ae)
    (hc : findClientByEmail db (pyLower ce) = some client)
    (ha : findArtisanByEmail db (pyLower ae) = some artisan)
    (hd : env.parseDate (data.completion_date.getD "") = some d)
    (hfut : ¬ d < env.now) :
    (env.constructFails = true →
        book_artisan env db .POST uid (some data)
          = ⟨.resp (.error "Unable to create booking: constructor raised") 500,
              db, []⟩)
    ∧ (env.constructFails = false → env.commitFails = true →
        book_artisan env db .POST uid (some data)
          = ⟨.raised "db.session.commit raised", db, []⟩) := by
  constructor
  · intro hcf
    simp [book_artisan, bookArtisanPost, hu, hrole, hce, hae, hc, ha, hd, hfut, hcf]
  · intro hcf hcm
    simp [book_artisan, bookArtisanPost, hu, hrole, hce, hae, hc, ha, hd, hfut,
      hcf, hcm]

theorem C8_persistence_failure_modes_witness :
    (envCommitFail.constructFails = true →
        book_artisan envCommitFail dbOk .POST 1 (some dataCreate)
          = ⟨.resp (.error "Unable to create booking: constructor raised") 500,
              dbOk, []⟩)
    ∧ (envCommitFail.constructFails = false → envCommitFail.commitFails = true →
        book_artisan envCommitFail dbOk .POST 1 (some dataCreate)
          = ⟨.raised "db.session.commit raised", dbOk, []⟩) :=
  C8_persistence_failure_modes envCommitFail dbOk 1 dataCreate clientUser
    "cleo@x.com" "arta@x.com" clientRec artisanRec 200
    rfl rfl rfl rfl (by decide) (by decide) rfl (by decide)

/-- C9 counterexample: an authenticated caller with no bookings gets 200 and
the empty listing even when the `page` parameter does not parse as an
integer — the parameters are only read when the caller has bookings. -/
theorem C9_counterexample :
    parseIntParam (some "abc") 1 = none
    ∧ bookingsRoute dbOk .GET 3 (some "abc") (some "xyz")
        = .resp (.listing [] 0 1) 200
    ∧ outcomeStatus (bookingsRoute dbOk .GET 3 (some "abc") (some "xyz"))
        ≠ some 400 := by
  refine ⟨by decide, by decide, by decide⟩

/-- C9 as amended: for an authenticated caller with a non-empty set of
bookings, a listing request whose `page` or `per_page` parameter fails to
parse as an integer is answered 400 with a JSON error body. -/
theorem C9_pagination_parse_failure (db : DB) (uid : Nat)
    (ps pps : Option String) (u : User) (bs : List Booking)
    (hu : findUser db uid = some u)
    (hbs : profileBookings db u = some bs) (hne : bs ≠ [])
    (hfail : parseIntParam ps 1 = none ∨ parseIntParam pps 10 = none) :
    ∃ msg, bookingsRoute db .GET uid ps pps = .resp (.error msg) 400 := by
  have hbe : bs.isEmpty = false := by
    simpa [List.isEmpty_iff] using hne
  rcases hfail with hf | hf
  · exact ⟨"Invalid request: invalid literal for int",
      by simp [bookingsRoute, hu, hbs, hbe, hf]⟩
  · rcases hp : parseIntParam ps 1 with _ | page
    · exact ⟨"Invalid request: invalid literal for int",
        by simp [bookingsRoute, hu, hbs, hbe, hp]⟩
    · exact ⟨"Invalid request: invalid literal for int",
        by simp [bookingsRoute, hu, hbs, hbe, hp, hf]⟩

theorem C9_pagination_parse_failure_witness :
    ∃ msg, bookingsRoute dbOk .GET 2 (some "abc") none
      = .resp (.error msg) 400 :=
  C9_pagination_parse_failure dbOk 2 (some "abc") none artisanUser
    [booking1, booking2] rfl (by decide) (by decide) (Or.inl (by decide))

/-- C10: an authenticated caller with no bookings gets 200, an empty
bookings list, `total_pages` 0 and `current_page` 1, whatever the `page` and
`per_page` parameters are (they are never read on this path). -/
theorem C10_empty_listing (db : DB) (uid : Nat) (u : User)
    (ps pps : Option String)
    (hu : findUser db uid = some u)
    (hempty : profileBookings db u = some []) :
    bookingsRoute db .GET uid ps pps = .resp (.listing [] 0 1) 200 := by
  simp [bookingsRoute, hu, hempty]

theorem C10_empty_listing_witness :
    bookingsRoute dbOk .GET 3 (some "garbage") (some "-7")
      = .resp (.listing [] 0 1) 200 :=
  C10_empty_listing dbOk 3 idleUser (some "garbage") (some "-7") rfl (by decide)

/-! ### Pagination helpers -/

theorem map_to_dict (l : List Booking) : l.map Booking.to_dict = l := by
  induction l with
  | nil => rfl
  | cons a t ih => simp [Booking.to_dict, ih]

/-- A Python slice `l[s:s+k]` with non-negative bounds is drop-then-take. -/
theorem pySlice_of_nonneg (l : List Booking) (s k : Int)
    (hs : 0 ≤ s) (hk : 0 ≤ k) :
    pySlice l s (s + k) = (l.drop s.toNat).take k.toNat := by
  rcases le_or_lt s (l.length : Int) with hsn | hsn
  · have h1 : pySliceBound (l.length : Int) s = s.toNat := by
      simp only [pySliceBound, if_neg (not_lt.2 hs)]
      omega
    have h2 : pySliceBound (l.length : Int) (s + k)
        = (min (s + k) (l.length : Int)).toNat := by
      simp only [pySliceBound, if_neg (by omega : ¬ s + k < 0)]
    unfold pySlice
    rw [h1, h2, List.drop_take, List.take_eq_take, List.length_drop]
    omega
  · have h1 : pySliceBound (l.length : Int) s = l.length := by
      simp only [pySliceBound, if_neg (not_lt.2 hs)]
      omega
    have h2 : l.length ≤ s.toNat := by omega
    unfold pySlice
    rw [h1, List.drop_take, List.drop_eq_nil_of_le (le_refl l.length),
      List.drop_eq_nil_of_le h2]
    simp

/-- `(c + p - 1) / p` is the ceiling of `c / p`: it is the least multiple
bound, `c ≤ q * p < c + p`. -/
theorem ceil_div_bounds (c p : Nat) (hp : 0 < p) :
    c ≤ ((c + p - 1) / p) * p ∧ ((c + p - 1) / p) * p < c + p := by
  have hd := Nat.div_add_mod' (c + p - 1) p
  have hr := Nat.mod_lt (c + p - 1) hp
  omega

/-- Python's `//` on the non-negative operands of the pagination formula is
Nat division. -/
theorem fdiv_toNat (c p : Nat) (hp : 0 < p) :
    ((c : Int) + (p : Int) - 1).fdiv (p : Int) = (((c + p - 1) / p : Nat) : Int) := by
  have h1 : ((c : Int) + (p : Int) - 1) = (((c + p - 1 : Nat)) : Int) := by
    omega
  rw [h1]
  exact (Int.ofNat_fdiv _ _).symm

/-- C3: for an authenticated caller with a non-empty set of bookings and
positive integer `page`/`per_page` parameters, the listing answers 200 with
the stable descending sort of the caller's bookings by `request_date`,
sliced to entries `[(page-1)*per_page, (page-1)*per_page + per_page)`,
`total_pages = ceil(count / per_page)` (characterised by
`count ≤ total_pages * per_page < count + per_page`) and `current_page`
the requested page. -/
theorem C3_listing_pagination (db : DB) (uid : Nat) (ps pps : Option String)
    (u : User) (bs : List Booking) (page per_page : Int)
    (hu : findUser db uid = some u)
    (hbs : profileBookings db u = some bs) (hne : bs ≠ [])
    (hp : parseIntParam ps 1 = some page)
    (hpp : parseIntParam pps 10 = some per_page)
    (hp1 : 1 ≤ page) (hpp1 : 1 ≤ per_page) :
    bookingsRoute db .GET uid ps pps
      = .resp (.listing
          (((sortByRequestDateDesc bs).drop ((page - 1) * per_page).toNat).take
            per_page.toNat)
          (((bs.length : Int) + per_page - 1).fdiv per_page) page) 200
    ∧ List.Sorted keyGE (sortByRequestDateDesc bs)
    ∧ (sortByRequestDateDesc bs).Perm bs
    ∧ (bs.length : Int)
        ≤ (((bs.length : Int) + per_page - 1).fdiv per_page) * per_page
    ∧ (((bs.length : Int) + per_page - 1).fdiv per_page) * per_page
        < (bs.length : Int) + per_page := by
  obtain ⟨p', rfl⟩ : ∃ n : Nat, per_page = (n : Int) :=
    ⟨per_page.toNat, (Int.toNat_of_nonneg (by omega)).symm⟩
  have hp'pos : 0 < p' := by exact_mod_cast hpp1
  have hbe : bs.isEmpty = false := by simpa [List.isEmpty_iff] using hne
  have hpp0 : (p' : Int) ≠ 0 := by exact_mod_cast hp'pos.ne'
  have hslice : pySlice (sortByRequestDateDesc bs) ((page - 1) * p')
      ((page - 1) * p' + p')
      = ((sortByRequestDateDesc bs).drop ((page - 1) * p').toNat).take
          (p' : Int).toNat :=
    pySlice_of_nonneg _ _ _ (mul_nonneg (by omega) (by omega)) (by omega)
  have hroute : bookingsRoute db .GET uid ps pps
      = .resp (.listing
          (pySlice (sortByRequestDateDesc bs) ((page - 1) * p')
            ((page - 1) * p' + p'))
          (((bs.length : Int) + p' - 1).fdiv p') page) 200 := by
    simp [bookingsRoute, hu, hbs, hbe, hp, hpp, hpp0, map_to_dict]
  have hceil := ceil_div_bounds bs.length p' hp'pos
  refine ⟨?_, List.sorted_insertionSort keyGE bs, List.perm_insertionSort keyGE bs,
    ?_, ?_⟩
  · rw [hroute, hslice]
  · rw [fdiv_toNat bs.length p' hp'pos]
    exact_mod_cast hceil.1
  · rw [fdiv_toNat bs.length p' hp'pos]
    exact_mod_cast hceil.2

theorem C3_listing_pagination_witness :
    bookingsRoute dbOk .GET 2 (some "1") (some "1")
      = .resp (.listing
          (((sortByRequestDateDesc [booking1, booking2]).drop
              (((1 : Int) - 1) * (1 : Int)).toNat).take (1 : Int).toNat)
          (((([booking1, booking2] : List Booking).length : Int) + 1 - 1).fdiv 1)
          1) 200
    ∧ List.Sorted keyGE (sortByRequestDateDesc [booking1, booking2])
    ∧ (sortByRequestDateDesc [booking1, booking2]).Perm [booking1, booking2]
    ∧ (([booking1, booking2] : List Booking).length : Int)
        ≤ (((([booking1, booking2] : List Booking).length : Int) + 1 - 1).fdiv 1)
            * 1
    ∧ (((([booking1, booking2] : List Booking).length : Int) + 1 - 1).fdiv 1) * 1
        < (([booking1, booking2] : List Booking).length : Int) + 1 :=
  C3_listing_pagination dbOk 2 (some "1") (some "1") artisanUser
    [booking1, booking2] 1 1 rfl rfl (by decide) (by decide) (by decide)
    (by decide) (by decide)

/-! ### Frame helpers for the update path -/

theorem forall₂_sameExceptStatus_refl (l : List Booking) :
    List.Forall₂ sameExceptStatus l l := by
  induction l with
  | nil => exact List.Forall₂.nil
  | cons a t ih =>
    exact List.Forall₂.cons ⟨rfl, rfl, rfl, rfl, rfl, rfl, rfl, rfl⟩ ih

theorem forall₂_sameExceptStatus_updateFirst (bid : Option Nat)
    (act : Option String) (l : List Booking) :
    List.Forall₂ sameExceptStatus l (updateFirst bid act l) := by
  induction l with
  | nil => exact List.Forall₂.nil
  | cons a t ih =>
    unfold updateFirst
    split
    · exact List.Forall₂.cons ⟨rfl, rfl, rfl, rfl, rfl, rfl, rfl, rfl⟩
        (forall₂_sameExceptStatus_refl t)
    · exact List.Forall₂.cons ⟨rfl, rfl, rfl, rfl, rfl, rfl, rfl, rfl⟩ ih

theorem forall₂_timestamps_of_sameExceptStatus (l₁ l₂ : List Booking)
    (h : List.Forall₂ sameExceptStatus l₁ l₂) :
    List.Forall₂
      (fun a b => a.request_date = b.request_date ∧ a.created_at = b.created_at)
      l₁ l₂ := by
  induction h with
  | nil => exact List.Forall₂.nil
  | cons hab _ ih =>
    obtain ⟨_, _, _, _, _, h6, _, h8⟩ := hab
    exact List.Forall₂.cons ⟨h6, h8⟩ ih

theorem forall₂_timestamps_refl (l : List Booking) :
    List.Forall₂
      (fun a b => a.request_date = b.request_date ∧ a.created_at = b.created_at)
      l l :=
  forall₂_timestamps_of_sameExceptStatus l l (forall₂_sameExceptStatus_refl l)

/-- The PUT branch leaves the booking table unchanged or rewrites it with
`updateFirst` at the request's `booking_id` and `action`. -/
theorem bookArtisanPut_db_bookings (env : Env) (db : DB) (u : User)
    (data : Option JsonData) :
    (bookArtisanPut env db u data).db.bookings = db.bookings
    ∨ ∃ d, data = some d
        ∧ (bookArtisanPut env db u data).db.bookings
            = updateFirst d.booking_id d.action db.bookings := by
  by_cases hr : u.role = "Artisan"
  · rcases data with _ | d
    · left
      simp [bookArtisanPut, hr]
    · rcases hfb : findBooking db d.booking_id with _ | b
      · left
        simp [bookArtisanPut, hr, hfb]
      · rcases hcf : env.commitFails with _ | _
        · right
          exact ⟨d, rfl, by simp [bookArtisanPut, hr, hfb, hcf]⟩
        · left
          simp [bookArtisanPut, hr, hfb, hcf]
  · left
    simp [bookArtisanPut, hr]

/-- The POST branch leaves the booking table unchanged or appends exactly one
new row. -/
theorem bookArtisanPost_db_bookings (env : Env) (db : DB) (u : User)
    (data : Option JsonData) :
    (bookArtisanPost env db u data).db.bookings = db.bookings
    ∨ ∃ b, (bookArtisanPost env db u data).db.bookings = db.bookings ++ [b] := by
  by_cases hr : u.role = "Client"
  case neg =>
    left
    simp [bookArtisanPost, hr]
  rcases data with _ | d
  · left
    simp [bookArtisanPost, hr]
  rcases hce : d.client_email with _ | ce
  · left
    simp [bookArtisanPost, hr, hce]
  rcases hae : d.artisan_email with _ | ae
  · left
    simp [bookArtisanPost, hr, hce, hae]
  rcases hpd : env.parseDate (d.completion_date.getD "") with _ | cd
  · left
    simp [bookArtisanPost, hr, hce, hae, hpd]
  by_cases hlt : cd < env.now
  · left
    simp [bookArtisanPost, hr, hce, hae, hpd, hlt]
  rcases hc : findClientByEmail db (pyLower ce) with _ | client
  · left
    simp [bookArtisanPost, hr, hce, hae, hpd, hlt, hc]
  rcases ha : findArtisanByEmail db (pyLower ae) with _ | artisan
  · left
    simp [bookArtisanPost, hr, hce, hae, hpd, hlt, hc, ha]
  rcases hcf : env.constructFails with _ | _
  · rcases hcm : env.commitFails with _ | _
    · right
      exact ⟨mkBooking env db client artisan (d.title.getD "") (d.details.getD "") cd,
        by simp [bookArtisanPost, hr, hce, hae, hpd, hlt, hc, ha, hcf, hcm]⟩
    · left
      simp [bookArtisanPost, hr, hce, hae, hpd, hlt, hc, ha, hcf, hcm]
  · left
    simp [bookArtisanPost, hr, hce, hae, hpd, hlt, hc, ha, hcf]

/-- C7: a booking update touches at most the `status` column of the stored
rows — every other column of every row survives any PUT unchanged, and the
table is either untouched or rewritten by `updateFirst` at the request's
`booking_id` — and no `book_artisan` request, whatever its method, rewrites
the `request_date` or `created_at` of a row that already existed. -/
theorem C7_update_frame (env : Env) (db : DB) (uid : Nat) (m : Method)
    (data : Option JsonData) :
    List.Forall₂
      (fun a b => a.request_date = b.request_date ∧ a.created_at = b.created_at)
      db.bookings
      ((book_artisan env db m uid data).db.bookings.take db.bookings.length)
    ∧ List.Forall₂ sameExceptStatus db.bookings
        (book_artisan env db .PUT uid data).db.bookings
    ∧ ((book_artisan env db .PUT uid data).db.bookings = db.bookings
        ∨ ∃ d, data = some d
            ∧ (book_artisan env db .PUT uid data).db.bookings
                = updateFirst d.booking_id d.action db.bookings) := by
  have hput : (book_artisan env db .PUT uid data).db.bookings = db.bookings
      ∨ ∃ d, data = some d
          ∧ (book_artisan env db .PUT uid data).db.bookings
              = updateFirst d.booking_id d.action db.bookings := by
    rcases hfu : findUser db uid with _ | u
    · left
      simp [book_artisan, hfu]
    · have hform : book_artisan env db .PUT uid data = bookArtisanPut env db u data := by
        simp [book_artisan, hfu]
      rw [hform]
      exact bookArtisanPut_db_bookings env db u data
  have hsame : List.Forall₂ sameExceptStatus db.bookings
      (book_artisan env db .PUT uid data).db.bookings := by
    rcases hput with h | ⟨d, _, h⟩
    · rw [h]
      exact forall₂_sameExceptStatus_refl db.bookings
    · rw [h]
      exact forall₂_sameExceptStatus_updateFirst _ _ db.bookings
  refine ⟨?_, hsame, hput⟩
  have hcases : (book_artisan env db m uid data).db.bookings = db.bookings
      ∨ (∃ d, data = some d ∧ (book_artisan env db m uid data).db.bookings
            = updateFirst d.booking_id d.action db.bookings)
      ∨ ∃ b, (book_artisan env db m uid data).db.bookings = db.bookings ++ [b] := by
    rcases m with _ | _ | _ | _
    · -- POST
      rcases hfu : findUser db uid with _ | u
      · left
        simp [book_artisan, hfu]
      · have hform : book_artisan env db .POST uid data
            = bookArtisanPost env db u data := by
          simp [book_artisan, hfu]
        rw [hform]
        rcases bookArtisanPost_db_bookings env db u data with h | ⟨b, h⟩
        · exact Or.inl h
        · exact Or.inr (Or.inr ⟨b, h⟩)
    · -- PUT
      rcases hput with h | ⟨d, hd, h⟩
      · exact Or.inl h
      · exact Or.inr (Or.inl ⟨d, hd, h⟩)
    · -- GET
      exact Or.inl rfl
    · -- OPTIONS
      exact Or.inl rfl
  rcases hcases with h | ⟨d, _, h⟩ | ⟨b, h⟩
  · rw [h, List.take_length]
    exact forall₂_timestamps_refl db.bookings
  · rw [h]
    have hlen : (updateFirst d.booking_id d.action db.bookings).length
        = db.bookings.length :=
      (List.Forall₂.length_eq
        (forall₂_sameExceptStatus_updateFirst d.booking_id d.action db.bookings)).symm
    rw [← hlen, List.take_length]
    exact forall₂_timestamps_of_sameExceptStatus _ _
      (forall₂_sameExceptStatus_updateFirst d.booking_id d.action db.bookings)
  · rw [h, List.take_left]
    exact forall₂_timestamps_refl db.bookings

end Hirafi
